import Mathlib

/-!
Verification of the workflow orchestrator of the bio-data-analysis service.

Shallow embedding of the Python sources:
  * app/utils/string_utils.py   (output truncation)
  * app/agent/transitions.py    (routing functions)
  * app/agent/nodes.py          (node implementations)
  * app/agent/graph.py          (graph wiring; langgraph invoke semantics)
  * app/models/task.py          (CompletedStep, TaskInfo, TaskStatus)
  * app/models/structured_outputs.py (LLM decision schemas)
  * app/services/task_service.py (task registry and graph invocation)

Python `str` values are embedded as Lean `String` (a list of unicode code
points, matching Python's code-point semantics for `len` and slicing);
where character-level reasoning is needed the `List Char` representation
(`String.data`) is used directly.  Python `int` counters that start at 0 and
are only incremented are embedded as `Nat`.  LLM and sandbox collaborators
are external to the engine; each node therefore takes its collaborator
response from an environment value (`Ext`), and a whole run is parameterised
by a stream of such values, quantified universally in the theorems.
-/

namespace BioDataAnalysis

/-- Configuration from app/config/settings.py (agent + truncation section).
Defaults: CODE_PLANNING_MAX_STEP_RETRIES = 3, CODE_GENERATION_MAX_RETRIES = 5. -/
structure Settings where
  CODE_PLANNING_MAX_STEP_RETRIES : Nat := 3
  CODE_GENERATION_MAX_RETRIES : Nat := 5
deriving DecidableEq

def defaultSettings : Settings := {}

/-- settings.MAX_OUTPUT_CHARS, default 25000 (app/config/settings.py). -/
def MAX_OUTPUT_CHARS : Nat := 25000

/-- Numerator of settings.OUTPUT_SPLIT_RATIO = 0.6 written as the exact
rational 3/5.  The source computes `head_size = int(max_chars * split_ratio)`
in IEEE-754 double arithmetic; for the default configuration
`int(25000 * 0.6)` evaluates to exactly `15000`, which coincides with the
exact rational floor `25000 * 3 / 5` embedded here. -/
def split_num : Nat := 3

/-- Denominator of settings.OUTPUT_SPLIT_RATIO = 0.6 as the rational 3/5. -/
def split_den : Nat := 5

/-- `head_size = int(max_chars * split_ratio)` of app/utils/string_utils.py
at the default configuration (exact value 15000, see `split_num`). -/
def head_size : Nat := MAX_OUTPUT_CHARS * split_num / split_den

/-- `tail_size = max_chars - head_size` of app/utils/string_utils.py. -/
def tail_size : Nat := MAX_OUTPUT_CHARS - head_size

/-- The truncation marker literal of app/utils/string_utils.py line 35:
`f"\n[--- OUTPUT TRUNCATED | middle omitted | original length={len(text)} chars ---]\n"`. -/
def truncMarker (n : Nat) : List Char :=
  ("\n[--- OUTPUT TRUNCATED | middle omitted | original length="
    ++ Nat.repr n ++ " chars ---]\n").data

/-- app/utils/string_utils.py `truncate_output` at the default configuration.
`if not text or len(text) <= max_chars: return text` is embedded as the single
length test (the empty string has length 0 ≤ max).  Python's `text[:h]` is
`List.take h`, and `text[-t:]` for `0 < t ≤ len(text)` is
`List.drop (len(text) - t)`. -/
def truncate_output (text : List Char) : List Char :=
  if text.length ≤ MAX_OUTPUT_CHARS then
    text
  else
    let tail := if 0 < tail_size then text.drop (text.length - tail_size) else []
    text.take head_size ++ truncMarker text.length ++ tail

/-- `truncate_output` on the `String` wrapper (used by the nodes). -/
def truncate_output_str (text : String) : String :=
  String.mk (truncate_output text.data)

-- Sanity: head and tail sizes at the default configuration.
theorem head_size_eq : head_size = 15000 := rfl

theorem tail_size_eq : tail_size = 10000 := rfl

/-- Modelled from the spec: the module app/agent/signals.py (ActionSignal,
AgentNode) is imported throughout src/app/agent but is not present under src.
Members are taken from the spec's signal set (§4.1) together with the string
default "continue" used for the `action_signal` field of AgentState
(app/agent/state.py line 42). -/
inductive ActionSignal
  | CONTINUE
  | CODE_PLANNING
  | GENERAL_ANSWER
  | CLARIFICATION
  | ITERATE_CURRENT_STEP
  | PROCEED_TO_NEXT_STEP
  | TASK_COMPLETED
  | TASK_FAILED
  | EXECUTE_CODE
  | CODE_EXECUTION_SUCCESS
  | CODE_EXECUTION_FAILED
  | FINAL_ANSWER
deriving DecidableEq

/-- Modelled from the spec: the node names of app/agent/signals.py AgentNode,
as used by app/agent/graph.py and the spec's transition table (§4.1). -/
inductive AgentNode
  | PLANNING
  | CODE_PLANNING
  | CODE_GENERATION
  | CODE_EXECUTION
  | EXECUTION_OBSERVER
  | REFLECTION
  | ANSWERING
deriving DecidableEq

/-- app/models/structured_outputs.py `StepObservation`.  The pydantic
`Literal` fields `kind` and `source` are embedded as strings with the same
defaults; the 1..5 bounds of importance/relevance are schema-level and are
not needed by the claims. -/
structure StepObservation where
  step_number : Nat := 0
  title : String
  summary : String
  kind : String := "observation"
  source : String := "data"
  raw_output : String := ""
  importance : Nat
  relevance : Nat
deriving DecidableEq

/-- The e2b `Execution` object consumed by code_execution_node, collapsed to
the text the node reads: `error` (None on success), the joined stdout lines,
the stderr text and the joined `results` strings.  The provider type is an
external collaborator; only these projections reach the agent state. -/
structure Execution where
  error : Option String := none
  stdout : String := ""
  stderr : String := ""
  results : String := ""
deriving DecidableEq

/-- app/models/task.py `CompletedStep` (lines 16-44).  The model declares
exactly these fields: step_number, goal, description, code, execution_result,
success.  It declares NO `observations` field, although
app/agent/nodes.py line 209 passes `observations=` when constructing it and
app/prompts/code_planning.py line 374 reads `step.observations`. -/
structure CompletedStep where
  step_number : Nat
  goal : String
  description : String
  code : String
  execution_result : Option Execution
  success : Bool
deriving DecidableEq

/-- The pydantic construction `CompletedStep(step_number=..., goal=...,
description=..., code=..., execution_result=..., success=...,
observations=observations)` performed by code_planning_node
(app/agent/nodes.py lines 202-210).  pydantic's default extra-field
behavior ignores unknown keyword arguments, so the `observations` argument
is silently dropped: the resulting record holds only the six declared
fields. -/
def mkCompletedStep (step_number : Nat) (goal description code : String)
    (execution_result : Option Execution) (success : Bool)
    (observations : List StepObservation) : CompletedStep :=
  { step_number := step_number, goal := goal, description := description,
    code := code, execution_result := execution_result, success := success }

/-- app/models/structured_outputs.py `CodePlanningDecision` (lines 114-134):
exactly the fields signal, step_goal, step_description, reasoning.  The
schema declares NO `observations` field, although app/agent/nodes.py line
143 reads `decision.observations` — see `code_planning_llm_branch`.
`signal` is the result of `ActionSignal.from_string(decision.signal,
ITERATE_CURRENT_STEP)` (nodes.py lines 137-139): a total parse into the enum
with that default, so an arbitrary enum member here. -/
structure CodePlanningDecision where
  signal : ActionSignal := ActionSignal.ITERATE_CURRENT_STEP
  step_goal : String := ""
  step_description : String := ""
  reasoning : String := ""
deriving DecidableEq

/-- app/models/structured_outputs.py `ArtifactDecision`. -/
structure ArtifactDecision where
  type : String := "FILE"
  description : String := ""
  full_path : String := ""
deriving DecidableEq

/-- app/models/structured_outputs.py `TaskResponseAnswer` (the ANSWERING
node's structured output). -/
structure TaskResponseAnswer where
  notebook_description : String := ""
  answer : String := ""
  success : Bool := true
  artifacts : List ArtifactDecision := []
deriving DecidableEq

/-- app/models/task.py `TaskStatus`. -/
inductive TaskStatus
  | IN_PROGRESS
  | COMPLETED
  | FAILED
deriving DecidableEq

/-- app/models/task.py `TaskResponse`, restricted to the fields the registry
claims touch (`id`/`status` set by the coordinator, `answer`, `success`). -/
structure TaskResponse where
  id : Option String := none
  status : Option TaskStatus := none
  answer : String := ""
  success : Bool := true
deriving DecidableEq

/-- app/agent/state.py `AgentState`, with the per-node read defaults of
app/agent/nodes.py applied (each node reads fields via `state.get(key,
default)`, and langgraph merges each node's returned update into the state).
`current_step_success` and the two observation lists are written by the
execution-observer and reflection nodes, which are imported by
app/agent/graph.py but absent from src; those three fields are modelled from
the spec (§3 AgentState, §4.1 nodes 5-6).  `current_step_success` defaults to
true, matching `state.get("current_step_success", True)` in
app/agent/transitions.py line 138.  The `task_info` back-reference and the
inherited message history are omitted: no embedded node reads them (the
with_status_update wrapper of app/agent/graph.py touches only the registry,
which is modelled separately). -/
structure AgentState where
  task_description : String := ""
  data_files_description : String := ""
  uploaded_files : List String := []
  sandbox_id : String := ""
  action_signal : ActionSignal := ActionSignal.CONTINUE
  task_rationale : String := ""
  current_step_goal : String := ""
  current_step_description : String := ""
  current_step_goal_history : List String := []
  step_number : Nat := 0
  step_attempts : Nat := 0
  completed_steps : List CompletedStep := []
  generated_code : String := ""
  code_generation_attempts : Nat := 0
  execution_result : Option Execution := none
  last_execution_output : String := ""
  last_execution_error : Option String := none
  failure_reason : String := ""
  task_answer : Option TaskResponseAnswer := none
  task_response : Option TaskResponse := none
  current_step_success : Bool := true
  current_step_observations : List StepObservation := []
  world_observations : List StepObservation := []
deriving DecidableEq

/-- One bundle of collaborator responses (LLM decisions and the sandbox
outcome) for a single node execution.  The node that runs reads exactly the
field corresponding to the external call it makes; a run consumes one bundle
per super-step.  `execution` is `Except.error msg` when the executor call
raises (the `except Exception` branch of code_execution_node). -/
structure Ext where
  planningSignal : ActionSignal := ActionSignal.CLARIFICATION
  planningRationale : String := ""
  cpDecision : CodePlanningDecision := {}
  genCode : String := ""
  execution : Except String Execution := Except.ok {}
  observerObs : List StepObservation := []
  observerSuccess : Bool := true
  reflectionWorld : List StepObservation := []
  answer : TaskResponseAnswer := {}
  clarificationQuestions : String := ""
  generalAnswer : String := ""

/-- app/agent/nodes.py `planning_node`: writes task_rationale and the parsed
action_signal (ActionSignal.from_string with default CLARIFICATION is a total
parse into the enum, hence an arbitrary member supplied by the environment). -/
def planning_node (e : Ext) (s : AgentState) : AgentState :=
  { s with task_rationale := e.planningRationale,
           action_signal := e.planningSignal }

/-- app/agent/nodes.py `code_planning_node` lines 117-122: the short-circuit
update returned when step_attempts exceeds the retry budget.  It sets ONLY
action_signal and failure_reason. -/
def code_planning_shortCircuit (s : AgentState) : AgentState :=
  { s with action_signal := ActionSignal.TASK_FAILED,
           failure_reason := "Exceeded maximum attempts for "
             ++ s.current_step_goal
             ++ ". Try simplifying the task or breaking it into smaller steps." }

/-- The exception text of app/agent/nodes.py line 143: a pydantic v2 model
raises AttributeError when an undeclared attribute is read. -/
def codePlanningAttributeError : String :=
  "AttributeError: CodePlanningDecision object has no attribute observations"

/-- app/agent/nodes.py `code_planning_node` lines 124-213, the branch taken
when the short-circuit does not fire.  The node obtains a
CodePlanningDecision and then executes `observations = decision.observations`
(line 143); the schema (structured_outputs.py lines 114-134) declares no such
field, and a pydantic v2 model raises AttributeError on an undeclared
attribute read, so the branch raises before any update is built — the signal
dispatch, the archive append and the context resets of lines 144-213 are
unreachable dead code.  (The call itself, at lines 126-135, already passes
keyword arguments last_execution_output / last_execution_error that
`generate_code_planning_decision` — llm_service.py lines 229-240 — does not
accept, raising TypeError even earlier; either way the branch aborts
exceptionally and produces no state update.) -/
def code_planning_llm_branch (_d : CodePlanningDecision) (_s : AgentState) :
    Except String AgentState :=
  Except.error codePlanningAttributeError

/-- app/agent/nodes.py `code_planning_node`: short-circuit guard
(`step_attempts > settings.CODE_PLANNING_MAX_STEP_RETRIES`, line 117) then
the LLM branch, which always raises (see `code_planning_llm_branch`). -/
def code_planning_node (cfg : Settings) (e : Ext) (s : AgentState) :
    Except String AgentState :=
  if s.step_attempts > cfg.CODE_PLANNING_MAX_STEP_RETRIES then
    Except.ok (code_planning_shortCircuit s)
  else
    code_planning_llm_branch e.cpDecision s

/-- app/agent/nodes.py `code_generation_node`: writes generated_code,
increments code_generation_attempts, sets EXECUTE_CODE. -/
def code_generation_node (e : Ext) (s : AgentState) : AgentState :=
  { s with generated_code := e.genCode,
           code_generation_attempts := s.code_generation_attempts + 1,
           action_signal := ActionSignal.EXECUTE_CODE }

/-- app/agent/nodes.py `code_execution_node`: runs the generated code in the
sandbox and branches on the outcome.  On success `last_execution_error` is
set to the empty string, on failure to the truncated message; a raised
executor exception is caught and surfaced as CODE_EXECUTION_FAILED.  Glossed
relative to the source, which applies `str(...)` and `truncate_output` to
the raw e2b list values (`str(execution.logs.stderr or execution.error)` at
line 302, `truncate_output(execution.logs.stdout)` on the list at line 308):
here those operands are pre-joined text, embedded as: stderr if non-empty,
otherwise the error text.  The glossing only affects the text content of the
execution-context fields, which no claim depends on (the node writes neither
completed_steps, step_number nor world_observations, and it is unreachable —
see `reach_dead_stores`). -/
def code_execution_node (e : Ext) (s : AgentState) : AgentState :=
  match e.execution with
  | Except.error exc =>
      { s with last_execution_error := some (truncate_output_str exc),
               last_execution_output := "",
               action_signal := ActionSignal.CODE_EXECUTION_FAILED }
  | Except.ok ex =>
      match ex.error with
      | some err =>
          let error_msg := if ex.stderr = "" then err else ex.stderr
          { s with execution_result := some ex,
                   last_execution_error := some (truncate_output_str error_msg),
                   last_execution_output := truncate_output_str ex.stdout,
                   action_signal := ActionSignal.CODE_EXECUTION_FAILED }
      | none =>
          let output :=
            (if ex.stdout ≠ "" then "\n[stdout]\n" ++ truncate_output_str ex.stdout else "")
            ++ (if ex.results ≠ "" then "\n[results]\n" ++ truncate_output_str ex.results else "")
          { s with execution_result := some ex,
                   last_execution_output := if output = "" then "(no output)" else output,
                   last_execution_error := some "",
                   action_signal := ActionSignal.CODE_EXECUTION_SUCCESS }

/-- Modelled from the spec: `execution_observer_node` is imported by
app/agent/graph.py line 32 but is not defined under src.  Per §4.1 node 5 it
asks the LLM for the step observations and writes `current_step_observations`
and `current_step_success`. -/
def execution_observer_node (e : Ext) (s : AgentState) : AgentState :=
  { s with current_step_observations := e.observerObs,
           current_step_success := e.observerSuccess }

/-- Modelled from the spec: the reflection merge collapses duplicate
(title, summary) pairs, keeping the first occurrence (§4.1 node 6:
"duplicate titles+summaries are collapsed" — a contract, not a suggestion). -/
def collapseDuplicates (l : List StepObservation) : List StepObservation :=
  l.foldl (fun acc o =>
    if acc.any (fun p => p.title = o.title && p.summary = o.summary) then acc
    else acc ++ [o]) []

/-- Modelled from the spec: `reflection_node` is imported by
app/agent/graph.py line 34 but is not defined under src.  Per §4.1 node 6 it
merges the step observations into `world_observations` under the dedup
contract; the LLM's proposed merge comes from the environment and the
contract's title+summary collapse is applied to it. -/
def reflection_node (e : Ext) (s : AgentState) : AgentState :=
  { s with world_observations := collapseDuplicates e.reflectionWorld }

/-- app/agent/nodes.py `answering_node`: the CLARIFICATION and GENERAL_ANSWER
branches build a TaskResponse; an invalid signal builds an error response;
the TASK_COMPLETED / TASK_FAILED branch produces the final TaskResponseAnswer
(artifact-path fixing and notebook saving act on the answer's artifact list
and the sandbox, not on the agent-state fields the claims concern). -/
def answering_node (e : Ext) (s : AgentState) : AgentState :=
  if s.action_signal = ActionSignal.CLARIFICATION then
    { s with task_response := some { answer := e.clarificationQuestions, success := false },
             action_signal := ActionSignal.FINAL_ANSWER }
  else if s.action_signal = ActionSignal.GENERAL_ANSWER then
    { s with task_response := some { answer := e.generalAnswer, success := true },
             action_signal := ActionSignal.FINAL_ANSWER }
  else if s.action_signal ≠ ActionSignal.TASK_COMPLETED
       ∧ s.action_signal ≠ ActionSignal.TASK_FAILED then
    { s with task_response := some { answer := "Error: ANSWERING_NODE reached with invalid action signal.", success := false },
             action_signal := ActionSignal.FINAL_ANSWER }
  else
    { s with task_answer := some e.answer,
             action_signal := ActionSignal.FINAL_ANSWER }

/-- app/agent/transitions.py `route_after_planning`. -/
def route_after_planning (s : AgentState) : AgentNode :=
  if s.action_signal = ActionSignal.GENERAL_ANSWER
      ∨ s.action_signal = ActionSignal.CLARIFICATION then
    AgentNode.ANSWERING
  else
    AgentNode.CODE_PLANNING

/-- app/agent/transitions.py `route_after_code_planning`. -/
def route_after_code_planning (s : AgentState) : AgentNode :=
  if s.action_signal = ActionSignal.TASK_COMPLETED
      ∨ s.action_signal = ActionSignal.TASK_FAILED then
    AgentNode.ANSWERING
  else
    AgentNode.CODE_GENERATION

/-- app/agent/transitions.py `route_after_code_generation`. -/
def route_after_code_generation (_s : AgentState) : AgentNode :=
  AgentNode.CODE_EXECUTION

/-- app/agent/transitions.py `route_after_code_execution` (lines 86-119). -/
def route_after_code_execution (cfg : Settings) (s : AgentState) : AgentNode :=
  if s.action_signal = ActionSignal.CODE_EXECUTION_SUCCESS then
    AgentNode.EXECUTION_OBSERVER
  else if s.action_signal = ActionSignal.CODE_EXECUTION_FAILED
      ∧ s.code_generation_attempts ≥ cfg.CODE_GENERATION_MAX_RETRIES then
    AgentNode.EXECUTION_OBSERVER
  else
    AgentNode.CODE_GENERATION

/-- app/agent/transitions.py `route_after_execution_observer`. -/
def route_after_execution_observer (s : AgentState) : AgentNode :=
  if !s.current_step_success then AgentNode.CODE_PLANNING
  else AgentNode.REFLECTION

/-- app/agent/transitions.py `route_after_reflection`. -/
def route_after_reflection (_s : AgentState) : AgentNode :=
  AgentNode.CODE_PLANNING

/-- One node execution, dispatching on the node, per the graph wiring of
app/agent/graph.py.  Only code_planning_node can fail (its ValueError). -/
def runNode (cfg : Settings) (e : Ext) : AgentNode → AgentState → Except String AgentState
  | AgentNode.PLANNING, s => Except.ok (planning_node e s)
  | AgentNode.CODE_PLANNING, s => code_planning_node cfg e s
  | AgentNode.CODE_GENERATION, s => Except.ok (code_generation_node e s)
  | AgentNode.CODE_EXECUTION, s => Except.ok (code_execution_node e s)
  | AgentNode.EXECUTION_OBSERVER, s => Except.ok (execution_observer_node e s)
  | AgentNode.REFLECTION, s => Except.ok (reflection_node e s)
  | AgentNode.ANSWERING, s => Except.ok (answering_node e s)

/-- The conditional edges of app/agent/graph.py applied to the post-node
state: the successor node, or `none` for END (the `answering -> END` edge of
line 173). -/
def nextNode (cfg : Settings) : AgentNode → AgentState → Option AgentNode
  | AgentNode.PLANNING, s => some (route_after_planning s)
  | AgentNode.CODE_PLANNING, s => some (route_after_code_planning s)
  | AgentNode.CODE_GENERATION, s => some (route_after_code_generation s)
  | AgentNode.CODE_EXECUTION, s => some (route_after_code_execution cfg s)
  | AgentNode.EXECUTION_OBSERVER, s => some (route_after_execution_observer s)
  | AgentNode.REFLECTION, s => some (route_after_reflection s)
  | AgentNode.ANSWERING, _ => none

/-- The initial AgentState built by TaskService.process_task
(app/services/task_service.py lines 91-97): the caller's inputs are set, all
other channels are at their read defaults. -/
def initialState (td dfd : String) (files : List String) (sid : String) : AgentState :=
  { task_description := td, data_files_description := dfd,
    uploaded_files := files, sandbox_id := sid }

/-- All configurations (current node or END, agent state) reachable by the
graph of app/agent/graph.py from the initial state built by process_task,
under every stream of collaborator responses.  `START -> planning` is the
edge of graph.py line 112. -/
inductive Reach (cfg : Settings) : Option AgentNode → AgentState → Prop
  | init (td dfd : String) (files : List String) (sid : String) :
      Reach cfg (some AgentNode.PLANNING) (initialState td dfd files sid)
  | step (e : Ext) {n : AgentNode} {s s' : AgentState} :
      Reach cfg (some n) s → runNode cfg e n s = Except.ok s' →
      Reach cfg (nextNode cfg n s') s'

/-- Outcome of one langgraph `invoke`: the final state after reaching END, a
GraphRecursionError when the step budget is exhausted, or a propagated node
exception (the ValueError of code_planning_node). -/
inductive RunResult
  | finished (s : AgentState)
  | graphRecursionError
  | valueError (msg : String)
deriving DecidableEq

/-- langgraph `CompiledStateGraph.invoke` semantics for this (linear,
one-node-per-super-step) graph: execute nodes following the conditional
edges; if more super-steps than `recursion_limit` would be needed, the
invoke raises GraphRecursionError.  Returns the outcome together with the
number of node executions performed.  `i` indexes the collaborator-response
stream. -/
def runGraph (cfg : Settings) (env : Nat → Ext) :
    Nat → Nat → Option AgentNode → AgentState → RunResult × Nat
  | _, _, none, s => (RunResult.finished s, 0)
  | _, 0, some _, _ => (RunResult.graphRecursionError, 0)
  | i, fuel + 1, some n, s =>
    match runNode cfg (env i) n s with
    | Except.error msg => (RunResult.valueError msg, 1)
    | Except.ok s' =>
      let r := runGraph cfg env (i + 1) fuel (nextNode cfg n s') s'
      (r.1, r.2 + 1)

/-- The recursion limit hardcoded by TaskService.process_task
(app/services/task_service.py line 103: `config={"recursion_limit": 250}`).
No MAX_GRAPH_STEPS constant exists in the source. -/
def PROCESS_TASK_RECURSION_LIMIT : Nat := 250

/-- TaskService.process_task step 4: `self.graph.invoke(initial_state,
config={"recursion_limit": 250})`. -/
def process_task_invoke (cfg : Settings) (env : Nat → Ext)
    (td dfd : String) (files : List String) (sid : String) : RunResult × Nat :=
  runGraph cfg env 0 PROCESS_TASK_RECURSION_LIMIT
    (some AgentNode.PLANNING) (initialState td dfd files sid)

/-- app/models/task.py `TaskInfo`.  `datetime.now()` is embedded as reading a
monotone clock: each call yields a `Nat` sample, successive samples
non-decreasing. -/
structure TaskInfo where
  task_id : String
  status : TaskStatus
  response : Option TaskResponse := none
  updated_at : Nat
  created_at : Nat
deriving DecidableEq

/-- app/models/task.py `TaskInfo.__init__` (lines 159-164): it assigns
`self.updated_at = datetime.now()` and THEN `self.created_at =
datetime.now()` — two successive clock samples in that order, so `now1` is
the updated_at sample and `now2 ≥ now1` the created_at sample. -/
def TaskInfo.init (task_id : String) (status : TaskStatus)
    (now1 now2 : Nat) : TaskInfo :=
  { task_id := task_id, status := status, response := none,
    updated_at := now1, created_at := now2 }

/-- app/models/task.py `TaskInfo.update_status` (lines 166-172): sets status,
sets response only when the argument is truthy (a pydantic model instance is
truthy, None is not), and refreshes updated_at with a fresh clock sample. -/
def TaskInfo.update_status (ti : TaskInfo) (status : TaskStatus)
    (response : Option TaskResponse) (now : Nat) : TaskInfo :=
  { ti with status := status,
            response := match response with
              | some r => some r
              | none => ti.response,
            updated_at := now }

/-- The registry map `TaskService._tasks : dict[str, TaskInfo]`, embedded as
an association list keyed by task_id. -/
abbrev Registry := List (String × TaskInfo)

def Registry.find? (reg : Registry) (task_id : String) : Option TaskInfo :=
  (List.find? (fun p => p.1 = task_id) reg).map (fun p => p.2)

def Registry.setEntry (reg : Registry) (task_id : String) (ti : TaskInfo) : Registry :=
  List.map (fun p => if p.1 = task_id then (p.1, ti) else p) reg

/-- TaskService.update_task_status (app/services/task_service.py lines
229-243): `task_info = self._tasks.get(task_id)` followed unconditionally by
`task_info.update_status(status, response)`.  When task_id is absent, `get`
returns None and the attribute access raises AttributeError — embedded as the
error case.  The registry itself is mutated only through the TaskInfo object,
so on the error path it is unchanged. -/
def update_task_status (reg : Registry) (task_id : String) (status : TaskStatus)
    (response : Option TaskResponse) (now : Nat) : Except String Registry :=
  match reg.find? task_id with
  | none => Except.error "AttributeError: NoneType object has no attribute update_status"
  | some ti => Except.ok (reg.setEntry task_id (ti.update_status status response now))

/-- `(a ++ b).data = a.data ++ b.data` for the String wrapper. -/
theorem string_data_append (a b : String) : (a ++ b).data = a.data ++ b.data := rfl

/-!  ## Theorems for the claims -/

/-- C10: truncation of text of length ≤ MAX_OUTPUT_CHARS is the identity;
for longer text the result is the first `head_size = floor(MAX_OUTPUT_CHARS ·
OUTPUT_SPLIT_RATIO)` characters, then the literal marker carrying the
original length, then the last `MAX_OUTPUT_CHARS - head_size` characters, and
its total length is exactly `MAX_OUTPUT_CHARS + len(marker)`. -/
theorem truncate_output_spec (text : List Char) :
    (text.length ≤ MAX_OUTPUT_CHARS → truncate_output text = text) ∧
    (MAX_OUTPUT_CHARS < text.length →
      truncate_output text =
        text.take head_size ++ truncMarker text.length
          ++ text.drop (text.length - (MAX_OUTPUT_CHARS - head_size)) ∧
      (truncate_output text).length
        = MAX_OUTPUT_CHARS + (truncMarker text.length).length) := by
  constructor
  · intro h
    simp [truncate_output, h]
  · intro h
    have hnot : ¬ text.length ≤ MAX_OUTPUT_CHARS := Nat.not_le.mpr h
    have htail : 0 < tail_size := by decide
    have heq : truncate_output text =
        text.take head_size ++ truncMarker text.length
          ++ text.drop (text.length - tail_size) := by
      simp [truncate_output, hnot, htail]
    refine ⟨heq, ?_⟩
    rw [heq]
    simp only [List.length_append, List.length_take, List.length_drop]
    have h25 : MAX_OUTPUT_CHARS = 25000 := rfl
    have h15 : head_size = 15000 := rfl
    have h10 : tail_size = 10000 := rfl
    rw [h25] at h
    rw [h25, h15, h10]
    have hmin : min 15000 text.length = 15000 := Nat.min_eq_left (by omega)
    rw [hmin]
    omega

/-- C10 witness: both branches at concrete inputs — a 5-character text is
returned unchanged, a 25001-character text is truncated to exactly
MAX_OUTPUT_CHARS + marker-length characters. -/
theorem truncate_output_spec_witness :
    ((List.replicate 5 'x').length ≤ MAX_OUTPUT_CHARS ∧
      truncate_output (List.replicate 5 'x') = List.replicate 5 'x') ∧
    (MAX_OUTPUT_CHARS < (List.replicate 25001 'x').length ∧
      (truncate_output (List.replicate 25001 'x')).length
        = MAX_OUTPUT_CHARS + (truncMarker (List.replicate 25001 'x').length).length) := by
  have h1 : (List.replicate 5 'x').length ≤ MAX_OUTPUT_CHARS := by
    rw [List.length_replicate]; decide
  have h2 : MAX_OUTPUT_CHARS < (List.replicate 25001 'x').length := by
    rw [List.length_replicate]; decide
  exact ⟨⟨h1, (truncate_output_spec (List.replicate 5 'x')).1 h1⟩,
         ⟨h2, ((truncate_output_spec (List.replicate 25001 'x')).2 h2).2⟩⟩

/-- C1: after CODE_EXECUTION the router sends the state to EXECUTION_OBSERVER
on CODE_EXECUTION_SUCCESS; to EXECUTION_OBSERVER on CODE_EXECUTION_FAILED
when code_generation_attempts ≥ CODE_GENERATION_MAX_RETRIES (including exact
equality); and to CODE_GENERATION on CODE_EXECUTION_FAILED with
code_generation_attempts < CODE_GENERATION_MAX_RETRIES. -/
theorem route_after_code_execution_spec (cfg : Settings) (s : AgentState) :
    (s.action_signal = ActionSignal.CODE_EXECUTION_SUCCESS →
      route_after_code_execution cfg s = AgentNode.EXECUTION_OBSERVER) ∧
    (s.action_signal = ActionSignal.CODE_EXECUTION_FAILED →
      cfg.CODE_GENERATION_MAX_RETRIES ≤ s.code_generation_attempts →
      route_after_code_execution cfg s = AgentNode.EXECUTION_OBSERVER) ∧
    (s.action_signal = ActionSignal.CODE_EXECUTION_FAILED →
      s.code_generation_attempts < cfg.CODE_GENERATION_MAX_RETRIES →
      route_after_code_execution cfg s = AgentNode.CODE_GENERATION) := by
  refine ⟨?_, ?_, ?_⟩
  · intro h
    simp [route_after_code_execution, h]
  · intro h1 h2
    simp [route_after_code_execution, h1, h2]
  · intro h1 h2
    simp [route_after_code_execution, h1, Nat.not_le.mpr h2]

/-- A concrete post-execution state: a failed execution with
code_generation_attempts exactly at the default retry budget. -/
def sC1w : AgentState :=
  { action_signal := ActionSignal.CODE_EXECUTION_FAILED,
    code_generation_attempts := 5 }

/-- C1 witness: at the boundary code_generation_attempts = 5 =
CODE_GENERATION_MAX_RETRIES on failure, the router picks EXECUTION_OBSERVER. -/
theorem route_after_code_execution_spec_witness :
    sC1w.action_signal = ActionSignal.CODE_EXECUTION_FAILED ∧
    defaultSettings.CODE_GENERATION_MAX_RETRIES ≤ sC1w.code_generation_attempts ∧
    route_after_code_execution defaultSettings sC1w = AgentNode.EXECUTION_OBSERVER :=
  ⟨rfl, by decide,
    (route_after_code_execution_spec defaultSettings sC1w).2.1 rfl (by decide)⟩

/-- C7: the `observations=` keyword passed to the CompletedStep constructor by
code_planning_node is dropped (the model declares no such field and pydantic
ignores unknown keyword arguments), so the archived record is identical
whatever observations were current when the step closed — the snapshot is not
retained. -/
theorem completedStep_observations_dropped :
    mkCompletedStep 0 "inspect data" "load and describe the csv" "df.describe()"
        none true
        [{ title := "finding", summary := "column X has nulls",
           importance := 3, relevance := 4 }]
      = mkCompletedStep 0 "inspect data" "load and describe the csv" "df.describe()"
        none true [] := rfl

/-- C8: updating the status of a task_id absent from the registry map is not
a no-op returning normally — `self._tasks.get(task_id)` yields None and the
unguarded `task_info.update_status(...)` raises AttributeError (the registry
is left unchanged only because the exception fires before any mutation). -/
theorem update_task_status_missing_task_raises :
    update_task_status ([] : Registry) "evicted-task" TaskStatus.COMPLETED none 0
      = Except.error "AttributeError: NoneType object has no attribute update_status" := rfl

/-- C2: on entry to CODE_PLANNING with step_attempts >
CODE_PLANNING_MAX_STEP_RETRIES the node returns the short-circuit update —
TASK_FAILED with a failure_reason starting with "Exceeded maximum attempts" —
for every LLM environment (no LLM consultation); but with step_attempts ≤
CODE_PLANNING_MAX_STEP_RETRIES (including equality) the LLM's decision is
NOT used — the branch raises AttributeError (nodes.py line 143 reads
decision.observations, a field the schema does not declare) before any
decision-driven update is built. -/
theorem code_planning_retry_guard (cfg : Settings) (e : Ext) (s : AgentState) :
    (cfg.CODE_PLANNING_MAX_STEP_RETRIES < s.step_attempts →
      code_planning_node cfg e s = Except.ok (code_planning_shortCircuit s) ∧
      (code_planning_shortCircuit s).action_signal = ActionSignal.TASK_FAILED ∧
      ("Exceeded maximum attempts").data <+:
        (code_planning_shortCircuit s).failure_reason.data) ∧
    (s.step_attempts ≤ cfg.CODE_PLANNING_MAX_STEP_RETRIES →
      code_planning_node cfg e s = Except.error codePlanningAttributeError) := by
  constructor
  · intro h
    have h1 : code_planning_node cfg e s = Except.ok (code_planning_shortCircuit s) := by
      simp [code_planning_node, h]
    refine ⟨h1, rfl, ?_⟩
    have hlit : ("Exceeded maximum attempts for ").data
        = ("Exceeded maximum attempts").data ++ (" for ").data := rfl
    refine ⟨(" for ").data ++ s.current_step_goal.data
      ++ (". Try simplifying the task or breaking it into smaller steps.").data, ?_⟩
    show ("Exceeded maximum attempts").data
        ++ ((" for ").data ++ s.current_step_goal.data
          ++ (". Try simplifying the task or breaking it into smaller steps.").data)
      = (code_planning_shortCircuit s).failure_reason.data
    simp [code_planning_shortCircuit, string_data_append, hlit]
  · intro h
    simp [code_planning_node, Nat.not_lt.mpr h, code_planning_llm_branch]

/-- A concrete CODE_PLANNING entry state past the default retry budget. -/
def sC2w : AgentState := { step_attempts := 4, current_step_goal := "load the csv" }

/-- A concrete CODE_PLANNING entry state exactly at the default retry
budget (step_attempts = 3 = CODE_PLANNING_MAX_STEP_RETRIES). -/
def sC2b : AgentState := { step_attempts := 3, current_step_goal := "load the csv" }

/-- C2 witness: at step_attempts = 4 > 3 the node returns the short-circuit
TASK_FAILED update; at the boundary step_attempts = 3 the short-circuit does
not fire and the LLM branch raises the AttributeError. -/
theorem code_planning_retry_guard_witness :
    (defaultSettings.CODE_PLANNING_MAX_STEP_RETRIES < sC2w.step_attempts ∧
      code_planning_node defaultSettings {} sC2w
        = Except.ok (code_planning_shortCircuit sC2w) ∧
      (code_planning_shortCircuit sC2w).action_signal = ActionSignal.TASK_FAILED) ∧
    (sC2b.step_attempts ≤ defaultSettings.CODE_PLANNING_MAX_STEP_RETRIES ∧
      code_planning_node defaultSettings {} sC2b
        = Except.error codePlanningAttributeError) := by
  have h : defaultSettings.CODE_PLANNING_MAX_STEP_RETRIES < sC2w.step_attempts := by decide
  have hb : sC2b.step_attempts ≤ defaultSettings.CODE_PLANNING_MAX_STEP_RETRIES := by decide
  have hc := (code_planning_retry_guard defaultSettings {} sC2w).1 h
  exact ⟨⟨h, hc.1, hc.2.1⟩,
         ⟨hb, (code_planning_retry_guard defaultSettings {} sC2b).2 hb⟩⟩

/-- A concrete CODE_PLANNING entry state where the short-circuit fires while
code_generation_attempts is non-zero and completed_steps is empty. -/
def sC4 : AgentState :=
  { step_attempts := 4, code_generation_attempts := 7,
    generated_code := "print(1)", last_execution_output := "1",
    current_step_goal := "analyze" }

/-- The same entry state as `sC4` but in budget (step_attempts = 2), so the
node takes the LLM branch. -/
def sC4b : AgentState :=
  { step_attempts := 2, code_generation_attempts := 7,
    generated_code := "print(1)", last_execution_output := "1",
    current_step_goal := "analyze" }

/-- C4: no return of code_planning_node ever archives a step or resets the
execution context.  At the short-circuit state `sC4` the node returns
TASK_FAILED yet completed_steps stays empty (no CompletedStep appended),
code_generation_attempts stays 7, generated_code and last_execution_output
are not cleared — refuting "including the TASK_FAILED produced by the
step_attempts short-circuit".  At the in-budget state `sC4b` the LLM branch
raises the AttributeError of nodes.py line 143 before the append and reset
code of lines 149-211 can run, so the claimed archiving update is never
produced at all. -/
theorem code_planning_shortCircuit_skips_archive :
    code_planning_node defaultSettings {} sC4
        = Except.ok (code_planning_shortCircuit sC4) ∧
    (code_planning_shortCircuit sC4).action_signal = ActionSignal.TASK_FAILED ∧
    (code_planning_shortCircuit sC4).completed_steps = [] ∧
    (code_planning_shortCircuit sC4).code_generation_attempts = 7 ∧
    (code_planning_shortCircuit sC4).generated_code = "print(1)" ∧
    (code_planning_shortCircuit sC4).last_execution_output = "1" ∧
    code_planning_node defaultSettings {} sC4b
        = Except.error codePlanningAttributeError := by
  refine ⟨rfl, rfl, rfl, rfl, rfl, rfl, rfl⟩

/-- app/agent/nodes.py `answering_node` leaves completed_steps, step_number
and world_observations untouched in every branch. -/
theorem answering_node_projections (e : Ext) (s : AgentState) :
    (answering_node e s).completed_steps = s.completed_steps ∧
    (answering_node e s).step_number = s.step_number ∧
    (answering_node e s).world_observations = s.world_observations := by
  unfold answering_node
  split_ifs <;> exact ⟨rfl, rfl, rfl⟩

/-- The combined invariant over reachable configurations.  Because the LLM
branch of code_planning_node always raises (nodes.py line 143 reads the
undeclared decision.observations), the only surviving return of
CODE_PLANNING is the step_attempts short-circuit, whose TASK_FAILED signal
routes to ANSWERING.  Hence the only nodes a run can occupy are PLANNING,
CODE_PLANNING, ANSWERING and END; CODE_GENERATION, CODE_EXECUTION,
EXECUTION_OBSERVER and REFLECTION are never entered, no CompletedStep is
ever appended, and world_observations is never written. -/
theorem reach_dead_stores (cfg : Settings) (n : Option AgentNode) (s : AgentState)
    (h : Reach cfg n s) :
    (n = some AgentNode.PLANNING ∨ n = some AgentNode.CODE_PLANNING ∨
      n = some AgentNode.ANSWERING ∨ n = none) ∧
    s.completed_steps = [] ∧ s.world_observations = [] := by
  induction h with
  | init td dfd files sid => exact ⟨Or.inl rfl, rfl, rfl⟩
  | step e hr hok ih =>
    rename_i n s s'
    obtain ⟨ihn, ihc, ihw⟩ := ih
    cases n with
    | PLANNING =>
      simp only [runNode, Except.ok.injEq] at hok
      subst hok
      refine ⟨?_, ihc, ihw⟩
      by_cases hroute : (planning_node e s).action_signal = ActionSignal.GENERAL_ANSWER
          ∨ (planning_node e s).action_signal = ActionSignal.CLARIFICATION
      · exact Or.inr (Or.inr (Or.inl (by simp [nextNode, route_after_planning, hroute])))
      · exact Or.inr (Or.inl (by simp [nextNode, route_after_planning, hroute]))
    | CODE_PLANNING =>
      simp only [runNode] at hok
      rw [code_planning_node] at hok
      by_cases hguard : cfg.CODE_PLANNING_MAX_STEP_RETRIES < s.step_attempts
      · rw [if_pos hguard, Except.ok.injEq] at hok
        subst hok
        refine ⟨Or.inr (Or.inr (Or.inl ?_)), ihc, ihw⟩
        simp [nextNode, route_after_code_planning, code_planning_shortCircuit]
      · rw [if_neg hguard] at hok
        exact absurd hok (by simp [code_planning_llm_branch])
    | CODE_GENERATION => rcases ihn with h1 | h1 | h1 | h1 <;> simp at h1
    | CODE_EXECUTION => rcases ihn with h1 | h1 | h1 | h1 <;> simp at h1
    | EXECUTION_OBSERVER => rcases ihn with h1 | h1 | h1 | h1 <;> simp at h1
    | REFLECTION => rcases ihn with h1 | h1 | h1 | h1 <;> simp at h1
    | ANSWERING =>
      simp only [runNode, Except.ok.injEq] at hok
      subst hok
      obtain ⟨f1, _f2, f3⟩ := answering_node_projections e s
      exact ⟨Or.inr (Or.inr (Or.inr rfl)), f1.trans ihc, f3.trans ihw⟩


theorem runGraph_count_le (cfg : Settings) (env : Nat → Ext) :
    ∀ (fuel i : Nat) (n : Option AgentNode) (s : AgentState),
      (runGraph cfg env i fuel n s).2 ≤ fuel := by
  intro fuel
  induction fuel with
  | zero =>
    intro i n s
    cases n <;> simp [runGraph]
  | succ f ih =>
    intro i n s
    cases n with
    | none => simp [runGraph]
    | some m =>
      simp only [runGraph]
      cases hrn : runNode cfg (env i) m s with
      | error msg => simp
      | ok s' =>
        simp only []
        have := ih (i + 1) (nextNode cfg m s') s'
        omega

/-- C3 (amended): every workflow run executes at most 250 node visits — the
recursion_limit the coordinator passes to invoke; there is no MAX_GRAPH_STEPS
constant, and exhausting the budget aborts the invoke with
GraphRecursionError instead of forcing a transition to ANSWERING. -/
theorem graph_step_budget_cap (cfg : Settings) (env : Nat → Ext)
    (td dfd : String) (files : List String) (sid : String) :
    (process_task_invoke cfg env td dfd files sid).2 ≤ PROCESS_TASK_RECURSION_LIMIT :=
  runGraph_count_le cfg env PROCESS_TASK_RECURSION_LIMIT 0
    (some AgentNode.PLANNING) (initialState td dfd files sid)

/-- An environment whose LLM decisions would loop forever: planning chooses
CODE_PLANNING, and the code-planning decision is always
PROCEED_TO_NEXT_STEP. -/
def envLoop : Nat → Ext := fun _ =>
  { planningSignal := ActionSignal.CODE_PLANNING,
    cpDecision := { signal := ActionSignal.PROCEED_TO_NEXT_STEP, step_goal := "g" } }

/-- C3 counterexample.  First conjunct: when the step budget is exhausted
(fuel 0 with a node still pending) the engine yields GraphRecursionError and
executes no further node — it does not force a transition to ANSWERING with
TASK_FAILED and reason "graph step budget exhausted" (that string appears
nowhere in the source).  Second and third conjuncts: the budget is not even
approachable — under the would-be-looping environment the run aborts at its
second node visit with the AttributeError of nodes.py line 143, long before
250 visits. -/
theorem budget_exhaustion_is_error :
    runGraph defaultSettings envLoop 0 0 (some AgentNode.CODE_PLANNING)
        (initialState "t" "" [] "sb")
      = (RunResult.graphRecursionError, 0) ∧
    (process_task_invoke defaultSettings envLoop "t" "" [] "sb").1
      = RunResult.valueError codePlanningAttributeError ∧
    (process_task_invoke defaultSettings envLoop "t" "" [] "sb").2 = 2 := by
  refine ⟨rfl, rfl, rfl⟩

/-- C5: in every reachable agent state completed_steps is empty — the only
code that appends a CompletedStep (nodes.py lines 196-211) lies beyond the
decision.observations read of line 143 inside the always-raising LLM branch,
so no step is ever archived and the claimed strictly-increasing,
appended-at-closing numbering never occurs (it would hold only vacuously). -/
theorem completed_steps_never_archived (cfg : Settings)
    (n : Option AgentNode) (s : AgentState) (h : Reach cfg n s) :
    s.completed_steps = [] :=
  (reach_dead_stores cfg n s h).2.1

/-- C5 witness: the invariant applied to a concrete reachable state. -/
theorem completed_steps_never_archived_witness :
    (initialState "t" "" [] "sb").completed_steps = [] :=
  completed_steps_never_archived defaultSettings (some AgentNode.PLANNING)
    (initialState "t" "" [] "sb") (Reach.init "t" "" [] "sb")

/-- C6: in every reachable agent state world_observations is empty — the
REFLECTION node (absent from src; imported at app/agent/graph.py line 34) is
never entered, because every path to it passes a CODE_PLANNING visit whose
LLM branch raises the AttributeError of nodes.py line 143.  The consolidated
store is never populated and the claimed post-reflection deduplication never
takes place (the no-duplicate property would hold only vacuously; state.py
declares no world_observations field at all). -/
theorem world_observations_never_populated (cfg : Settings)
    (n : Option AgentNode) (s : AgentState) (h : Reach cfg n s) :
    s.world_observations = [] :=
  (reach_dead_stores cfg n s h).2.2

/-- C6 witness: the invariant applied to a concrete reachable state. -/
theorem world_observations_never_populated_witness :
    (initialState "t" "" [] "sb").world_observations = [] :=
  world_observations_never_populated defaultSettings (some AgentNode.PLANNING)
    (initialState "t" "" [] "sb") (Reach.init "t" "" [] "sb")

/-- C9: TaskInfo.__init__ samples `updated_at = datetime.now()` BEFORE
`created_at = datetime.now()`; whenever the clock advances between the two
samples (here: 0 then 1), the freshly constructed record has
updated_at < created_at, violating the claimed invariant updated_at ≥
created_at immediately after construction. -/
theorem taskInfo_init_updated_at_before_created_at :
    (TaskInfo.init "task-1" TaskStatus.IN_PROGRESS 0 1).updated_at
      < (TaskInfo.init "task-1" TaskStatus.IN_PROGRESS 0 1).created_at := by decide

end BioDataAnalysis
